import Mathlib

/-!
Verification of the TuyaOpen AI Monitor Service
(`src/tuya_ai_basic/monitor/tuya_ai_monitor.c`).

The definitions below are a shallow embedding of that C file.  Byte buffers
are `List Nat` (each element a byte value), machine integers are `Nat`/`Int`
with explicit wrapping where the C code wraps, and fallible operations return
an error code together with the unchanged/updated state.

Types and constants that the monitor consumes from `tuya_ai_protocol.h` /
`tuya_error_code.h` (not part of the sources) are modelled from the spec and
marked as such in their doc comments.
-/

/-- Modelled from the spec: `OPERATE_RET` codes come from `tuya_error_code.h`,
which is not among the sources.  Only the facts that `OPRT_OK = 0` and that the
error codes are distinct nonzero values matter to the monitor code. -/
def OPRT_OK : Int := 0

/-- Modelled from the spec: generic communication error code, nonzero. -/
def OPRT_COM_ERROR : Int := -1

/-- Modelled from the spec: invalid-parameter error code, nonzero. -/
def OPRT_INVALID_PARM : Int := -2

/-- Modelled from the spec: allocation-failure error code, nonzero. -/
def OPRT_MALLOC_FAILED : Int := -3

/-- Modelled from the spec: not-supported error code, nonzero. -/
def OPRT_NOT_SUPPORTED : Int := -4

/-- Modelled from the spec: not-found error code, nonzero.
`__find_sync_frame` returns it when no magic word is found. -/
def OPRT_NOT_FOUND : Int := -6

/-- Byte at index `i` of a buffer; reads past the end yield 0.
The C code's out-of-bounds reads are undefined behaviour; this total model
makes such reads return 0 and, where a claim depends on it, the out-of-bounds
access is tracked explicitly (see `findSyncReadsOOB`). -/
def byteAt (buf : List Nat) (i : Nat) : Nat := buf.getD i 0

/-- Big-endian 32-bit read at offset `off` (`memcpy` + `UNI_NTOHL`). -/
def be32At (buf : List Nat) (off : Nat) : Nat :=
  byteAt buf off * 16777216 + byteAt buf (off + 1) * 65536 +
    byteAt buf (off + 2) * 256 + byteAt buf (off + 3)

/-- Big-endian 64-bit read at offset `off` (`memcpy` + `UNI_NTOHLL`). -/
def be64At (buf : List Nat) (off : Nat) : Nat :=
  be32At buf off * 4294967296 + be32At buf (off + 4)

/-- Big-endian encoding of a 32-bit value. -/
def be32bytes (n : Nat) : List Nat :=
  [n / 16777216 % 256, n / 65536 % 256, n / 256 % 256, n % 256]

/-- The frame magic `0x54594149` in network byte order, as compared by
`memcmp` in `__find_sync_frame` ("TYAI"). -/
def magicBytes : List Nat := [0x54, 0x59, 0x41, 0x49]

/- ------------------------------------------------------------------ -/
/- Writer adapter: `s_monitor_writer_cfg` and `__default_update`.      -/
/- ------------------------------------------------------------------ -/

/-- `ai_monitor_writer_cfg_t`: target descriptor, direction, outbound
sequence counter and the three per-direction fragment-offset cells. -/
structure WriterCfg where
  fd : Int
  direction : Nat
  sequenceOut : Nat
  fragOffset : List Nat
  deriving Repr, DecidableEq

/-- `s_monitor_writer_cfg`'s static initializer: fd = -1, direction = 0,
sequence_out = 1, fragment offsets zeroed. -/
def initWriterCfg : WriterCfg :=
  { fd := -1, direction := 0, sequenceOut := 1, fragOffset := [0, 0, 0] }

/-- The `AI_STAGE_GET_SEQUENCE` branch of `__default_update`:
return `sequence_out` and post-increment it as a `uint16_t`; if the
incremented value wrapped to 0, set it to 1. -/
def getSequence (cfg : WriterCfg) : Nat × WriterCfg :=
  let ret := cfg.sequenceOut
  let s1 := (cfg.sequenceOut + 1) % 65536
  let s2 := if s1 = 0 then 1 else s1
  (ret, { cfg with sequenceOut := s2 })

/-- Writer configuration after `k` GET_SEQUENCE invocations, starting from
the initial configuration. -/
def seqIter : Nat → WriterCfg
  | 0 => initWriterCfg
  | k + 1 => (getSequence (seqIter k)).2

/-- Value returned by the `k`-th (0-indexed) GET_SEQUENCE invocation. -/
def seqVal (k : Nat) : Nat := (getSequence (seqIter k)).1

theorem seqIter_sequenceOut (k : Nat) :
    (seqIter k).sequenceOut = k % 65535 + 1 := by
  induction k with
  | zero => rfl
  | succ k ih =>
    have h1 : (seqIter k).sequenceOut = k % 65535 + 1 := ih
    have h2 : k % 65535 < 65535 := Nat.mod_lt _ (by norm_num)
    show (getSequence (seqIter k)).2.sequenceOut = (k + 1) % 65535 + 1
    simp only [getSequence, h1]
    by_cases h : k % 65535 = 65534
    · have : (k % 65535 + 1 + 1) % 65536 = 65536 % 65536 := by omega
      simp only [h]
      norm_num
      omega
    · have hlt : k % 65535 + 1 + 1 < 65536 := by omega
      have : (k % 65535 + 1 + 1) % 65536 = k % 65535 + 1 + 1 :=
        Nat.mod_eq_of_lt hlt
      simp only [this]
      have hne : ¬ (k % 65535 + 1 + 1 = 0) := by omega
      simp only [if_neg hne]
      omega

/-- C3: starting from the initial writer configuration, consecutive
GET_SEQUENCE invocations return 1, 2, ..., 65535, 1, 2, ...; every value lies
in the interval from 1 to 65535 and 0 is never returned. -/
theorem getSequence_stream (k : Nat) :
    seqVal k = k % 65535 + 1 ∧ 1 ≤ seqVal k ∧ seqVal k ≤ 65535 := by
  have h : seqVal k = (seqIter k).sequenceOut := rfl
  rw [h, seqIter_sequenceOut]
  have := Nat.mod_lt k (show 0 < 65535 by norm_num)
  omega

/-- Witness for C3: the first value is 1, the 65534-th is 65535, and the
65535-th wraps back to 1. -/
theorem getSequence_stream_w :
    seqVal 0 = 0 % 65535 + 1 ∧ 1 ≤ seqVal 0 ∧ seqVal 0 ≤ 65535 :=
  getSequence_stream 0

/- ------------------------------------------------------------------ -/
/- Frame codec: `__find_sync_frame` and `__socket_read_handler`.       -/
/- ------------------------------------------------------------------ -/

/-- One `memcmp(data + offset, &magic, 4) == 0` comparison of
`__find_sync_frame`.  When fewer than 4 bytes remain the C code reads past
the end of the buffer (undefined behaviour); this total model lets such a
comparison fail, and `findSyncReadsOOB` below records that it happened. -/
def magicAt (buf : List Nat) (off : Nat) : Bool :=
  decide ((buf.drop off).take 4 = magicBytes)

/-- The scan loop of `__find_sync_frame`: offsets 0, 1, ..., `len`
(the C loop condition is `offset <= len`), one 4-byte comparison each.
Returns the C return value together with a flag recording whether any
performed comparison read past index `len - 1`. -/
def findSyncGo (buf : List Nat) : Nat → Bool → Nat → Int × Bool
  | _, oob, 0 => (OPRT_NOT_FOUND, oob)
  | off, oob, r + 1 =>
    let oob2 := oob || decide (buf.length < off + 4)
    if magicAt buf off then ((off : Int), oob2)
    else findSyncGo buf (off + 1) oob2 r

/-- `__find_sync_frame(data, len)`: offset of the first magic occurrence,
or `OPRT_NOT_FOUND`. -/
def findSyncFrame (buf : List Nat) : Int :=
  (findSyncGo buf 0 false (buf.length + 1)).1

/-- Whether the scan `__find_sync_frame` performs on `buf` includes a 4-byte
comparison whose start offset `o` has `o + 4 > len` (an out-of-bounds read). -/
def findSyncReadsOOB (buf : List Nat) : Bool :=
  (findSyncGo buf 0 false (buf.length + 1)).2

/-- Modelled from the spec: `sizeof(AI_PACKET_HEAD_T)`.  The struct lives in
`tuya_ai_protocol.h`, which is not among the sources; the monitor reads only
its `version`, `iv_flag`, `security_level`, `frag_flag` and `sequence`
fields.  We model it as a packed 6-byte layout holding exactly those fields
(four single bytes plus a 2-byte sequence); no claim depends on the width. -/
def PKG_HEAD_SIZE : Nat := 6

/-- `sizeof(ai_monitor_header_t)`: 4-byte magic + 1 flags byte + packet
header. -/
def MON_HDR_SIZE : Nat := 5 + PKG_HEAD_SIZE

/-- Direction bits of the flags byte of the frame at offset `p`.  The C
bitfield is `reserved : 6; direction : 2`; with the usual little-endian
allocation `direction` occupies the two top bits. -/
def frameDirection (buf : List Nat) (p : Nat) : Nat :=
  byteAt buf (p + 4) / 64

/-- The validation of a candidate frame at offset `p` against
direction = ACK (2), version = 1, iv_flag = 0, security_level = SL0 and
frag_flag = no-fragmentation (SL0 and NO_FRAG modelled as 0, from the spec:
their numeric values live in `tuya_ai_protocol.h`). -/
def validHeader (buf : List Nat) (p : Nat) : Bool :=
  frameDirection buf p == 2 && byteAt buf (p + 5) == 1 &&
    byteAt buf (p + 6) == 0 && byteAt buf (p + 7) == 0 &&
    byteAt buf (p + 8) == 0

/-- The framing loop of `__socket_read_handler`, fuelled (each iteration that
does not exit advances `processed` by at least 4, so `len + 1` units of fuel
always suffice).  Returns the final `processed` value and the list of inner
packet bodies passed to `__parse_pkg`.  Mirrors the C control flow:
a nonzero `__find_sync_frame` result is treated as failure and drops the
whole buffer; a too-short remainder breaks without consuming; an invalid
header advances 4 bytes; a complete valid frame is sliced and handled. -/
def readLoopGo (buf : List Nat) : Nat → List (List Nat) → Nat → Nat × List (List Nat)
  | processed, frames, 0 => (processed, frames)
  | processed, frames, fuel + 1 =>
    if processed < buf.length then
      let ret := findSyncFrame (buf.drop processed)
      if ret ≠ OPRT_OK then (buf.length, frames)
      else if buf.length - processed < MON_HDR_SIZE + 4 then (processed, frames)
      else
        let pkgLen := be32At buf (processed + MON_HDR_SIZE)
        if validHeader buf processed then
          let p2 := processed + MON_HDR_SIZE + 4
          if buf.length - p2 < pkgLen then (processed, frames)
          else readLoopGo buf (p2 + pkgLen) (frames ++ [(buf.drop p2).take pkgLen]) fuel
        else readLoopGo buf (processed + 4) frames fuel
    else (processed, frames)

/-- One invocation of the frame-parsing part of `__socket_read_handler` on a
receive buffer: runs the framing loop, then compacts the unconsumed remainder
to the start of the buffer.  Returns the new buffer contents and the list of
inner packet bodies handled. -/
def socketReadHandler (buf : List Nat) : List Nat × List (List Nat) :=
  let r := readLoopGo buf 0 [] (buf.length + 1)
  (buf.drop r.1, r.2)

/-- Frame-header bytes claiming an inner packet of length `n`: magic, flags
byte with direction ACK, version 1, iv_flag 0, security level 0, no
fragmentation, sequence 0, big-endian length `n`. -/
def mkFrameHdr (n : Nat) : List Nat :=
  magicBytes ++ [128, 1, 0, 0, 0, 0, 0] ++ be32bytes n

/-- A complete valid wire frame carrying `body` as inner packet. -/
def mkValidFrame (body : List Nat) : List Nat :=
  mkFrameHdr body.length ++ body

/-- C8 (the sync-word scan stays in bounds) is FALSE of the code: the loop
`for (offset = 0; offset <= len; offset++)` compares 4 bytes at every offset
up to and including `len`.  On the empty buffer the very first comparison
reads 4 bytes past the end; on a 5-byte buffer without magic the comparisons
at offsets 2..5 read past the end.  (A correct loop bound would be
`offset + 4 <= len`.) -/
theorem findSyncFrame_reads_out_of_bounds :
    findSyncReadsOOB [] = true ∧ findSyncReadsOOB [0, 0, 0, 0, 0] = true ∧
      findSyncFrame [0, 0, 0, 0, 0] = OPRT_NOT_FOUND := by
  refine ⟨by decide, by decide, by decide⟩

/-- C1 (garbage prefix is discarded and the following frame handled) is FALSE
of the code: `__socket_read_handler` checks `ret != OPRT_OK` on the offset
returned by `__find_sync_frame`, so any *positive* offset is treated as
failure and the whole buffer, valid frame included, is dropped (the
`processed += ret` resynchronization line is dead code).  Here a buffer of
one garbage byte followed by a valid frame yields no handled frame and an
emptied buffer, while the same frame without the garbage byte is handled. -/
theorem resync_drops_frame_after_garbage :
    socketReadHandler (0 :: mkValidFrame [7]) = ([], []) ∧
      socketReadHandler (mkValidFrame [7]) = ([], [[7]]) := by
  refine ⟨by decide, by decide⟩

theorem magicAt_mkFrameHdr (n : Nat) (rest : List Nat) :
    magicAt (mkFrameHdr n ++ rest) 0 = true := rfl

theorem validHeader_mkFrameHdr (n : Nat) (rest : List Nat) :
    validHeader (mkFrameHdr n ++ rest) 0 = true := by
  norm_num [validHeader, frameDirection, byteAt, mkFrameHdr, magicBytes, be32bytes]

theorem length_mkFrameHdr (n : Nat) : (mkFrameHdr n).length = 15 := rfl

theorem be32At_mkFrameHdr (n : Nat) (rest : List Nat) (h : n < 4294967296) :
    be32At (mkFrameHdr n ++ rest) 11 = n := by
  have e : be32At (mkFrameHdr n ++ rest) 11 =
      n / 16777216 % 256 * 16777216 + n / 65536 % 256 * 65536 +
        n / 256 % 256 * 256 + n % 256 := rfl
  rw [e]
  omega

theorem magicAt_le_length (l : List Nat) (h : magicAt l 0 = true) :
    4 ≤ l.length := by
  simp only [magicAt, decide_eq_true_eq] at h
  rw [List.drop_zero] at h
  have h2 := congrArg List.length h
  simp [List.length_take, magicBytes] at h2
  omega

theorem findSyncFrame_of_magic (buf : List Nat) (h : magicAt buf 0 = true) :
    findSyncFrame buf = OPRT_OK := by
  unfold findSyncFrame
  rw [findSyncGo]
  simp [h, OPRT_OK]

theorem readLoopGo_stop (buf : List Nat) (p : Nat) (frames : List (List Nat))
    (fuel : Nat) (hf : 0 < fuel) (h : ¬ p < buf.length) :
    readLoopGo buf p frames fuel = (p, frames) := by
  cases fuel with
  | zero => omega
  | succ f => simp [readLoopGo, h]

theorem readLoopGo_dropAll (buf : List Nat) (p : Nat) (frames : List (List Nat))
    (fuel : Nat) (hf : 0 < fuel) (h : p < buf.length)
    (hs : findSyncFrame (buf.drop p) ≠ OPRT_OK) :
    readLoopGo buf p frames fuel = (buf.length, frames) := by
  cases fuel with
  | zero => omega
  | succ f => simp [readLoopGo, h, hs]

theorem readLoopGo_shortHdr (buf : List Nat) (p : Nat) (frames : List (List Nat))
    (fuel : Nat) (hf : 0 < fuel) (h : p < buf.length)
    (hs : findSyncFrame (buf.drop p) = OPRT_OK)
    (hshort : buf.length - p < MON_HDR_SIZE + 4) :
    readLoopGo buf p frames fuel = (p, frames) := by
  cases fuel with
  | zero => omega
  | succ f => simp [readLoopGo, h, hs, hshort]

theorem readLoopGo_shortBody (buf : List Nat) (p : Nat) (frames : List (List Nat))
    (fuel : Nat) (hf : 0 < fuel) (h : p < buf.length)
    (hs : findSyncFrame (buf.drop p) = OPRT_OK)
    (hlen : ¬ buf.length - p < MON_HDR_SIZE + 4)
    (hvalid : validHeader buf p = true)
    (hb : buf.length - (p + MON_HDR_SIZE + 4) < be32At buf (p + MON_HDR_SIZE)) :
    readLoopGo buf p frames fuel = (p, frames) := by
  cases fuel with
  | zero => omega
  | succ f => simp [readLoopGo, h, hs, hlen, hvalid, hb]

theorem readLoopGo_consume (buf : List Nat) (p : Nat) (frames : List (List Nat))
    (fuel : Nat) (h : p < buf.length)
    (hs : findSyncFrame (buf.drop p) = OPRT_OK)
    (hlen : ¬ buf.length - p < MON_HDR_SIZE + 4)
    (hvalid : validHeader buf p = true)
    (hb : ¬ buf.length - (p + MON_HDR_SIZE + 4) < be32At buf (p + MON_HDR_SIZE)) :
    readLoopGo buf p frames (fuel + 1) =
      readLoopGo buf (p + MON_HDR_SIZE + 4 + be32At buf (p + MON_HDR_SIZE))
        (frames ++ [(buf.drop (p + MON_HDR_SIZE + 4)).take (be32At buf (p + MON_HDR_SIZE))])
        fuel := by
  simp [readLoopGo, h, hs, hlen, hvalid, hb]

/-- C6 (amended): a buffer beginning with a complete valid frame has exactly
the frame's `sizeof(header) + 4 + pkg_len` bytes consumed and the frame
handled, and the bytes after the frame are preserved and compacted to the
buffer start PROVIDED the remainder is empty or is itself the (incomplete)
beginning of a next frame; the same loop pass otherwise continues into the
remainder (see the counterexample).  A buffer holding fewer bytes than
header + length, or fewer than header + length + pkg_len, has nothing
consumed. -/
theorem socketReadHandler_frame_consumption :
    (∀ (body rest : List Nat), body.length < 4294967296 →
        rest = [] ∨ (magicAt rest 0 = true ∧ rest.length < MON_HDR_SIZE + 4) →
        socketReadHandler (mkValidFrame body ++ rest) = (rest, [body])) ∧
    (∀ buf : List Nat, magicAt buf 0 = true → buf.length < MON_HDR_SIZE + 4 →
        socketReadHandler buf = (buf, [])) ∧
    (∀ (n : Nat) (body : List Nat), n < 4294967296 → body.length < n →
        socketReadHandler (mkFrameHdr n ++ body) = (mkFrameHdr n ++ body, [])) := by
  have hm : MON_HDR_SIZE = 11 := rfl
  refine ⟨?_, ?_, ?_⟩
  · intro body rest h32 hrest
    have hassoc : mkValidFrame body ++ rest =
        mkFrameHdr body.length ++ (body ++ rest) := by
      simp [mkValidFrame]
    rw [hassoc]
    have hlen : (mkFrameHdr body.length ++ (body ++ rest)).length =
        15 + (body.length + rest.length) := by
      simp [length_mkFrameHdr]
    have hsync : findSyncFrame ((mkFrameHdr body.length ++ (body ++ rest)).drop 0) =
        OPRT_OK := by
      rw [List.drop_zero]
      exact findSyncFrame_of_magic _ (magicAt_mkFrameHdr body.length (body ++ rest))
    have hpkg : be32At (mkFrameHdr body.length ++ (body ++ rest)) (0 + MON_HDR_SIZE) =
        body.length := by
      rw [show 0 + MON_HDR_SIZE = 11 by omega]
      exact be32At_mkFrameHdr body.length (body ++ rest) h32
    have hslice : ((mkFrameHdr body.length ++ (body ++ rest)).drop
        (0 + MON_HDR_SIZE + 4)).take
          (be32At (mkFrameHdr body.length ++ (body ++ rest)) (0 + MON_HDR_SIZE)) =
        body := by
      rw [hpkg, show 0 + MON_HDR_SIZE + 4 = 15 by omega,
        List.drop_left' (length_mkFrameHdr body.length), List.take_left]
    have e1 := readLoopGo_consume (mkFrameHdr body.length ++ (body ++ rest)) 0 []
      (mkFrameHdr body.length ++ (body ++ rest)).length
      (by omega) hsync (by omega) (validHeader_mkFrameHdr body.length (body ++ rest))
      (by rw [hpkg]; omega)
    rw [hslice, hpkg] at e1
    have hdrop : (mkFrameHdr body.length ++ (body ++ rest)).drop
        (0 + MON_HDR_SIZE + 4 + body.length) = rest := by
      rw [← List.append_assoc]
      exact List.drop_left' (by simp [length_mkFrameHdr]; omega)
    simp only [List.nil_append] at e1
    have e2 : readLoopGo (mkFrameHdr body.length ++ (body ++ rest))
        (0 + MON_HDR_SIZE + 4 + body.length) [body]
        (mkFrameHdr body.length ++ (body ++ rest)).length =
        (0 + MON_HDR_SIZE + 4 + body.length, [body]) := by
      rcases hrest with hnil | ⟨hmrest, hshort⟩
      · have hr0 : rest.length = 0 := by rw [hnil]; rfl
        exact readLoopGo_stop _ _ _ _ (by omega) (by omega)
      · have hr4 : 4 ≤ rest.length := magicAt_le_length rest hmrest
        exact readLoopGo_shortHdr _ _ _ _ (by omega) (by omega)
          (by rw [hdrop]; exact findSyncFrame_of_magic rest hmrest)
          (by omega)
    simp only [socketReadHandler, e1, e2]
    rw [hdrop]
  · intro buf hmagic hshort
    have hr4 : 4 ≤ buf.length := magicAt_le_length buf hmagic
    have hsync : findSyncFrame (buf.drop 0) = OPRT_OK := by
      rw [List.drop_zero]
      exact findSyncFrame_of_magic buf hmagic
    have e1 : readLoopGo buf 0 [] (buf.length + 1) = (0, []) :=
      readLoopGo_shortHdr _ _ _ _ (by omega) (by omega) hsync (by omega)
    simp only [socketReadHandler, e1]
    rw [List.drop_zero]
  · intro n body h32 hlt
    have hlen : (mkFrameHdr n ++ body).length = 15 + body.length := by
      simp [length_mkFrameHdr]
    have hsync : findSyncFrame ((mkFrameHdr n ++ body).drop 0) = OPRT_OK := by
      rw [List.drop_zero]
      exact findSyncFrame_of_magic _ (magicAt_mkFrameHdr n body)
    have hpkg : be32At (mkFrameHdr n ++ body) (0 + MON_HDR_SIZE) = n := by
      rw [show 0 + MON_HDR_SIZE = 11 by omega]
      exact be32At_mkFrameHdr n body h32
    have e1 : readLoopGo (mkFrameHdr n ++ body) 0 [] ((mkFrameHdr n ++ body).length + 1) =
        (0, []) :=
      readLoopGo_shortBody _ _ _ _ (by omega) (by omega) hsync (by omega)
        (validHeader_mkFrameHdr n body) (by rw [hpkg]; omega)
    simp only [socketReadHandler, e1]
    rw [List.drop_zero]

/-- Witness for C6: a complete one-byte-body frame alone is consumed whole; a
bare magic word is left untouched; a valid header claiming a 2-byte body with
only 1 byte buffered is left untouched. -/
theorem socketReadHandler_frame_consumption_w :
    socketReadHandler (mkValidFrame [7] ++ []) = ([], [[7]]) ∧
      socketReadHandler [0x54, 0x59, 0x41, 0x49] = ([0x54, 0x59, 0x41, 0x49], []) ∧
      socketReadHandler (mkFrameHdr 2 ++ [9]) = (mkFrameHdr 2 ++ [9], []) :=
  ⟨socketReadHandler_frame_consumption.1 [7] [] (by decide) (Or.inl rfl),
    socketReadHandler_frame_consumption.2.1 [0x54, 0x59, 0x41, 0x49] (by decide) (by decide),
    socketReadHandler_frame_consumption.2.2 2 [9] (by decide) (by decide)⟩

/-- Counterexample for C6 as stated: the bytes after a complete valid frame
are NOT always preserved — the framing loop keeps running on the remainder,
and a 1-byte garbage tail (no magic word in it) is dropped in the same pass
instead of being compacted to the buffer start. -/
theorem socketReadHandler_drops_tail_after_frame :
    socketReadHandler (mkValidFrame [] ++ [0]) = ([], [[]]) ∧
      ([] : List Nat) ≠ [0] := by
  refine ⟨by decide, by decide⟩

/- ------------------------------------------------------------------ -/
/- Client table and subscription bitmap.                               -/
/- ------------------------------------------------------------------ -/

/-- `ai_monitor_client_t`, restricted to the fields the handlers below read
or write (socket fd, connection flag, liveness timestamp and the 8-byte
`registered_types` bitmap). -/
structure Client where
  fd : Int
  connected : Bool
  lastPingTime : Nat
  registeredTypes : List Nat
  deriving Repr, DecidableEq

/-- Modelled from the spec: the numeric codes of `AI_PACKET_PT` live in
`tuya_ai_protocol.h`, which is not among the sources.  The spec fixes
`CUSTOM_LOG = 60`; the remaining subscribable codes are modelled as distinct
values below 64. -/
def AI_PT_VIDEO : Nat := 0

/-- Modelled from the spec (see `AI_PT_VIDEO`). -/
def AI_PT_AUDIO : Nat := 1

/-- Modelled from the spec (see `AI_PT_VIDEO`). -/
def AI_PT_IMAGE : Nat := 2

/-- Modelled from the spec (see `AI_PT_VIDEO`). -/
def AI_PT_FILE : Nat := 3

/-- Modelled from the spec (see `AI_PT_VIDEO`). -/
def AI_PT_TEXT : Nat := 4

/-- Modelled from the spec (see `AI_PT_VIDEO`). -/
def AI_PT_EVENT : Nat := 5

/-- Modelled from the spec (see `AI_PT_VIDEO`). -/
def AI_PT_PING : Nat := 6

/-- CUSTOM_LOG packet-type code 60 (given by the spec). -/
def AI_PT_CUSTOM_LOG : Nat := 60

/-- `__is_client_registered`: false when the type is out of range of the
64-bit bitmap or the slot is not connected; otherwise the bit test
`registered_types[type / 8] & (1 << (type % 8))`. -/
def isClientRegistered (client : Client) (ptype : Nat) : Bool :=
  if 64 ≤ ptype ∨ client.connected = false then false
  else decide (byteAt client.registeredTypes (ptype / 8) &&& (1 <<< (ptype % 8)) ≠ 0)

/-- `__client_register`: rejects an out-of-range type or a disconnected slot
with `OPRT_INVALID_PARM`; otherwise sets the bit. -/
def clientRegister (client : Client) (ptype : Nat) : Int × Client :=
  if 64 ≤ ptype ∨ client.connected = false then (OPRT_INVALID_PARM, client)
  else
    let b := byteAt client.registeredTypes (ptype / 8) ||| (1 <<< (ptype % 8))
    (OPRT_OK, { client with registeredTypes := client.registeredTypes.set (ptype / 8) b })

/-- `__client_register_clear`: `memset` of the 8-byte bitmap. -/
def clientRegisterClear (client : Client) : Client :=
  { client with registeredTypes := [0, 0, 0, 0, 0, 0, 0, 0] }

/-- `AI_EVENT_ATTR_T`, restricted to the fields `__handle_event_filter`
reads (the parsed event attribute's user data and its length). -/
structure EventAttr where
  userLen : Nat
  userData : List Nat
  deriving Repr, DecidableEq

/-- `__handle_event_filter` together with the log-sink registration side
effect: rejects a user-data length other than 8; otherwise decodes the
big-endian 64-bit bitmap, clears all registrations, re-registers each
recognized packet type whose bit is set, and registers (bit set) or
unregisters (bit clear) the log output term.  Returns the handler status,
the updated client slot and the updated log-term registration flag. -/
def handleEventFilter (client : Client) (logTerm : Bool) (event : EventAttr) :
    Int × Client × Bool :=
  if event.userLen ≠ 8 then (OPRT_INVALID_PARM, client, logTerm)
  else
    let bitmap := be64At event.userData 0
    let c0 := clientRegisterClear client
    let c1 := if bitmap &&& (1 <<< AI_PT_VIDEO) ≠ 0 then (clientRegister c0 AI_PT_VIDEO).2 else c0
    let c2 := if bitmap &&& (1 <<< AI_PT_AUDIO) ≠ 0 then (clientRegister c1 AI_PT_AUDIO).2 else c1
    let c3 := if bitmap &&& (1 <<< AI_PT_IMAGE) ≠ 0 then (clientRegister c2 AI_PT_IMAGE).2 else c2
    let c4 := if bitmap &&& (1 <<< AI_PT_FILE) ≠ 0 then (clientRegister c3 AI_PT_FILE).2 else c3
    let c5 := if bitmap &&& (1 <<< AI_PT_TEXT) ≠ 0 then (clientRegister c4 AI_PT_TEXT).2 else c4
    let c6 := if bitmap &&& (1 <<< AI_PT_EVENT) ≠ 0 then (clientRegister c5 AI_PT_EVENT).2 else c5
    if bitmap &&& (1 <<< AI_PT_CUSTOM_LOG) ≠ 0 then
      (OPRT_OK, (clientRegister c6 AI_PT_CUSTOM_LOG).2, true)
    else
      (OPRT_OK, c6, false)

theorem and_shift_ne_zero (n k : Nat) : (n &&& (1 <<< k) ≠ 0) ↔ n.testBit k = true := by
  rw [Nat.shiftLeft_eq, one_mul, Nat.and_two_pow]
  cases h : n.testBit k <;> simp [h]

theorem decide_and_shift (n k : Nat) :
    decide (n &&& (1 <<< k) ≠ 0) = n.testBit k := by
  cases h : n.testBit k
  · simp [and_shift_ne_zero, h]
  · simp [and_shift_ne_zero, h]

theorem byteAt_set_eq (l : List Nat) (i v : Nat) (h : i < l.length) :
    byteAt (l.set i v) i = v := by
  simp [byteAt, List.getD_eq_getElem?_getD, List.getElem?_set, h]

theorem byteAt_set_ne (l : List Nat) (i j v : Nat) (h : i ≠ j) :
    byteAt (l.set i v) j = byteAt l j := by
  simp [byteAt, List.getD_eq_getElem?_getD, List.getElem?_set, h]

theorem byteAt_replicate_zero (j : Nat) : byteAt (List.replicate 8 0) j = 0 := by
  simp only [byteAt, List.getD_eq_getElem?_getD, List.getElem?_replicate]
  by_cases h : j < 8 <;> simp [h]

theorem clientRegister_connected (c : Client) (t : Nat) :
    (clientRegister c t).2.connected = c.connected := by
  simp only [clientRegister]
  split <;> rfl

theorem clientRegister_length (c : Client) (t : Nat) :
    (clientRegister c t).2.registeredTypes.length = c.registeredTypes.length := by
  simp only [clientRegister]
  split
  · rfl
  · simp [List.length_set]

theorem isClientRegistered_register (c : Client) (t u : Nat) (ht : t < 64)
    (hc : c.connected = true) (hlen : c.registeredTypes.length = 8) :
    isClientRegistered (clientRegister c t).2 u =
      (decide (u = t) || isClientRegistered c u) := by
  have hguard : ¬ (64 ≤ t ∨ c.connected = false) := by
    simp [hc]
    omega
  by_cases hu : 64 ≤ u
  · have h1 : isClientRegistered (clientRegister c t).2 u = false := by
      simp [isClientRegistered, hu]
    have h2 : isClientRegistered c u = false := by
      simp [isClientRegistered, hu]
    have h3 : decide (u = t) = false := by
      simp
      omega
    rw [h1, h2, h3]
    rfl
  · have hreg : (clientRegister c t).2 = { c with registeredTypes := c.registeredTypes.set (t / 8) (byteAt c.registeredTypes (t / 8) ||| (1 <<< (t % 8))) } := by
      simp [clientRegister, if_neg hguard]
    rw [hreg]
    simp only [isClientRegistered]
    rw [if_neg (by simp [hc, hu]), if_neg (by simp [hc, hu]),
      decide_and_shift, decide_and_shift]
    by_cases hij : t / 8 = u / 8
    · rw [← hij, byteAt_set_eq _ _ _ (by omega), Nat.testBit_or]
      have hpow : ((1 : Nat) <<< (t % 8)).testBit (u % 8) = decide (t % 8 = u % 8) := by
        rw [Nat.shiftLeft_eq, one_mul, Nat.testBit_two_pow]
      rw [hpow]
      have hd : decide (u = t) = decide (t % 8 = u % 8) :=
        decide_eq_decide.mpr (by omega)
      rw [hd, Bool.or_comm]
    · rw [byteAt_set_ne _ _ _ _ hij]
      have hd : decide (u = t) = false := by
        simp
        omega
      rw [hd, Bool.false_or]

theorem isClientRegistered_condRegister (c : Client) (P : Prop) [Decidable P] (t u : Nat)
    (ht : t < 64) (hc : c.connected = true) (hlen : c.registeredTypes.length = 8) :
    isClientRegistered (if P then (clientRegister c t).2 else c) u =
      ((decide P && decide (u = t)) || isClientRegistered c u) := by
  by_cases hP : P
  · simp [hP, isClientRegistered_register c t u ht hc hlen]
  · simp [hP]

theorem condRegister_connected (c : Client) (P : Prop) [Decidable P] (t : Nat) :
    (if P then (clientRegister c t).2 else c).connected = c.connected := by
  split
  · exact clientRegister_connected c t
  · rfl

theorem condRegister_length (c : Client) (P : Prop) [Decidable P] (t : Nat) :
    (if P then (clientRegister c t).2 else c).registeredTypes.length =
      c.registeredTypes.length := by
  split
  · exact clientRegister_length c t
  · rfl

theorem byteAt_zeros (j : Nat) : byteAt [0, 0, 0, 0, 0, 0, 0, 0] j = 0 := by
  have h : ([0, 0, 0, 0, 0, 0, 0, 0] : List Nat) = List.replicate 8 0 := rfl
  rw [h]
  exact byteAt_replicate_zero j

theorem isClientRegistered_clear (c : Client) (u : Nat) :
    isClientRegistered (clientRegisterClear c) u = false := by
  simp only [isClientRegistered, clientRegisterClear]
  split
  · rfl
  · simp [byteAt_zeros]

/-- The packet-type codes recognized by `__handle_event_filter` (video,
audio, image, file, text, event, custom log). -/
def recognizedType (u : Nat) : Bool :=
  decide (u = AI_PT_VIDEO) || decide (u = AI_PT_AUDIO) || decide (u = AI_PT_IMAGE) ||
    decide (u = AI_PT_FILE) || decide (u = AI_PT_TEXT) || decide (u = AI_PT_EVENT) ||
    decide (u = AI_PT_CUSTOM_LOG)

/-- C4: after a MONITOR_FILTER event whose 8-byte user data decodes to
bitmap B, the slot's subscription set is exactly B intersected with the
recognized types (all other bits of B are ignored), and the log-sink output
term is registered exactly when the custom-log bit of B is set. -/
theorem handleEventFilter_bitmap (client : Client) (logTerm : Bool) (event : EventAttr)
    (hc : client.connected = true) (h8 : event.userLen = 8) :
    (handleEventFilter client logTerm event).1 = OPRT_OK ∧
    (∀ u : Nat, isClientRegistered (handleEventFilter client logTerm event).2.1 u =
      ((be64At event.userData 0).testBit u && recognizedType u)) ∧
    (handleEventFilter client logTerm event).2.2 =
      (be64At event.userData 0).testBit AI_PT_CUSTOM_LOG := by
  have hne : ¬ (event.userLen ≠ 8) := by simp [h8]
  simp only [handleEventFilter, if_neg hne]
  set B := be64At event.userData 0 with hB
  set s0 := clientRegisterClear client with hs0
  set s1 := (if B &&& (1 <<< AI_PT_VIDEO) ≠ 0 then (clientRegister s0 AI_PT_VIDEO).2 else s0) with hs1
  set s2 := (if B &&& (1 <<< AI_PT_AUDIO) ≠ 0 then (clientRegister s1 AI_PT_AUDIO).2 else s1) with hs2
  set s3 := (if B &&& (1 <<< AI_PT_IMAGE) ≠ 0 then (clientRegister s2 AI_PT_IMAGE).2 else s2) with hs3
  set s4 := (if B &&& (1 <<< AI_PT_FILE) ≠ 0 then (clientRegister s3 AI_PT_FILE).2 else s3) with hs4
  set s5 := (if B &&& (1 <<< AI_PT_TEXT) ≠ 0 then (clientRegister s4 AI_PT_TEXT).2 else s4) with hs5
  set s6 := (if B &&& (1 <<< AI_PT_EVENT) ≠ 0 then (clientRegister s5 AI_PT_EVENT).2 else s5) with hs6
  have hc0 : s0.connected = true := by rw [hs0]; exact hc
  have hl0 : s0.registeredTypes.length = 8 := by rw [hs0]; rfl
  have hc1 : s1.connected = true := by rw [hs1, condRegister_connected]; exact hc0
  have hl1 : s1.registeredTypes.length = 8 := by rw [hs1, condRegister_length]; exact hl0
  have hc2 : s2.connected = true := by rw [hs2, condRegister_connected]; exact hc1
  have hl2 : s2.registeredTypes.length = 8 := by rw [hs2, condRegister_length]; exact hl1
  have hc3 : s3.connected = true := by rw [hs3, condRegister_connected]; exact hc2
  have hl3 : s3.registeredTypes.length = 8 := by rw [hs3, condRegister_length]; exact hl2
  have hc4 : s4.connected = true := by rw [hs4, condRegister_connected]; exact hc3
  have hl4 : s4.registeredTypes.length = 8 := by rw [hs4, condRegister_length]; exact hl3
  have hc5 : s5.connected = true := by rw [hs5, condRegister_connected]; exact hc4
  have hl5 : s5.registeredTypes.length = 8 := by rw [hs5, condRegister_length]; exact hl4
  have hc6 : s6.connected = true := by rw [hs6, condRegister_connected]; exact hc5
  have hl6 : s6.registeredTypes.length = 8 := by rw [hs6, condRegister_length]; exact hl5
  refine ⟨?_, ?_, ?_⟩
  · by_cases hlog : B &&& (1 <<< AI_PT_CUSTOM_LOG) ≠ 0
    · rw [if_pos hlog]
    · rw [if_neg hlog]
  · intro u
    by_cases hlog : B &&& (1 <<< AI_PT_CUSTOM_LOG) ≠ 0
    · rw [if_pos hlog]
      have h60 : B.testBit AI_PT_CUSTOM_LOG = true := by
        rw [← decide_and_shift]
        simp [hlog]
      simp only [AI_PT_CUSTOM_LOG] at h60
      show isClientRegistered (clientRegister s6 AI_PT_CUSTOM_LOG).2 u = _
      rw [isClientRegistered_register s6 AI_PT_CUSTOM_LOG u (by norm_num [AI_PT_CUSTOM_LOG]) hc6 hl6,
        hs6, isClientRegistered_condRegister s5 _ AI_PT_EVENT u (by norm_num [AI_PT_EVENT]) hc5 hl5,
        hs5, isClientRegistered_condRegister s4 _ AI_PT_TEXT u (by norm_num [AI_PT_TEXT]) hc4 hl4,
        hs4, isClientRegistered_condRegister s3 _ AI_PT_FILE u (by norm_num [AI_PT_FILE]) hc3 hl3,
        hs3, isClientRegistered_condRegister s2 _ AI_PT_IMAGE u (by norm_num [AI_PT_IMAGE]) hc2 hl2,
        hs2, isClientRegistered_condRegister s1 _ AI_PT_AUDIO u (by norm_num [ AI_PT_AUDIO]) hc1 hl1,
        hs1, isClientRegistered_condRegister s0 _ AI_PT_VIDEO u (by norm_num [AI_PT_VIDEO]) hc0 hl0,
        hs0, isClientRegistered_clear]
      simp only [decide_and_shift, Bool.or_false]
      by_cases h0 : u = AI_PT_VIDEO
      · simp [h0, recognizedType, AI_PT_VIDEO, AI_PT_AUDIO, AI_PT_IMAGE, AI_PT_FILE,
          AI_PT_TEXT, AI_PT_EVENT, AI_PT_CUSTOM_LOG]
      by_cases h1 : u = AI_PT_AUDIO
      · simp [h1, recognizedType, AI_PT_VIDEO, AI_PT_AUDIO, AI_PT_IMAGE, AI_PT_FILE,
          AI_PT_TEXT, AI_PT_EVENT, AI_PT_CUSTOM_LOG]
      by_cases h2 : u = AI_PT_IMAGE
      · simp [h2, recognizedType, AI_PT_VIDEO, AI_PT_AUDIO, AI_PT_IMAGE, AI_PT_FILE,
          AI_PT_TEXT, AI_PT_EVENT, AI_PT_CUSTOM_LOG]
      by_cases h3 : u = AI_PT_FILE
      · simp [h3, recognizedType, AI_PT_VIDEO, AI_PT_AUDIO, AI_PT_IMAGE, AI_PT_FILE,
          AI_PT_TEXT, AI_PT_EVENT, AI_PT_CUSTOM_LOG]
      by_cases h4 : u = AI_PT_TEXT
      · simp [h4, recognizedType, AI_PT_VIDEO, AI_PT_AUDIO, AI_PT_IMAGE, AI_PT_FILE,
          AI_PT_TEXT, AI_PT_EVENT, AI_PT_CUSTOM_LOG]
      by_cases h5 : u = AI_PT_EVENT
      · simp [h5, recognizedType, AI_PT_VIDEO, AI_PT_AUDIO, AI_PT_IMAGE, AI_PT_FILE,
          AI_PT_TEXT, AI_PT_EVENT, AI_PT_CUSTOM_LOG]
      by_cases h6 : u = AI_PT_CUSTOM_LOG
      · simp [h6, h60, recognizedType, AI_PT_VIDEO, AI_PT_AUDIO, AI_PT_IMAGE, AI_PT_FILE,
          AI_PT_TEXT, AI_PT_EVENT, AI_PT_CUSTOM_LOG]
      · simp [recognizedType, h0, h1, h2, h3, h4, h5, h6]
    · rw [if_neg hlog]
      have h60 : B.testBit AI_PT_CUSTOM_LOG = false := by
        rw [← decide_and_shift]
        exact decide_eq_false hlog
      simp only [AI_PT_CUSTOM_LOG] at h60
      show isClientRegistered s6 u = _
      rw [hs6, isClientRegistered_condRegister s5 _ AI_PT_EVENT u (by norm_num [AI_PT_EVENT]) hc5 hl5,
        hs5, isClientRegistered_condRegister s4 _ AI_PT_TEXT u (by norm_num [AI_PT_TEXT]) hc4 hl4,
        hs4, isClientRegistered_condRegister s3 _ AI_PT_FILE u (by norm_num [AI_PT_FILE]) hc3 hl3,
        hs3, isClientRegistered_condRegister s2 _ AI_PT_IMAGE u (by norm_num [AI_PT_IMAGE]) hc2 hl2,
        hs2, isClientRegistered_condRegister s1 _ AI_PT_AUDIO u (by norm_num [ AI_PT_AUDIO]) hc1 hl1,
        hs1, isClientRegistered_condRegister s0 _ AI_PT_VIDEO u (by norm_num [AI_PT_VIDEO]) hc0 hl0,
        hs0, isClientRegistered_clear]
      simp only [decide_and_shift, Bool.or_false]
      by_cases h0 : u = AI_PT_VIDEO
      · simp [h0, recognizedType, AI_PT_VIDEO, AI_PT_AUDIO, AI_PT_IMAGE, AI_PT_FILE,
          AI_PT_TEXT, AI_PT_EVENT, AI_PT_CUSTOM_LOG]
      by_cases h1 : u = AI_PT_AUDIO
      · simp [h1, recognizedType, AI_PT_VIDEO, AI_PT_AUDIO, AI_PT_IMAGE, AI_PT_FILE,
          AI_PT_TEXT, AI_PT_EVENT, AI_PT_CUSTOM_LOG]
      by_cases h2 : u = AI_PT_IMAGE
      · simp [h2, recognizedType, AI_PT_VIDEO, AI_PT_AUDIO, AI_PT_IMAGE, AI_PT_FILE,
          AI_PT_TEXT, AI_PT_EVENT, AI_PT_CUSTOM_LOG]
      by_cases h3 : u = AI_PT_FILE
      · simp [h3, recognizedType, AI_PT_VIDEO, AI_PT_AUDIO, AI_PT_IMAGE, AI_PT_FILE,
          AI_PT_TEXT, AI_PT_EVENT, AI_PT_CUSTOM_LOG]
      by_cases h4 : u = AI_PT_TEXT
      · simp [h4, recognizedType, AI_PT_VIDEO, AI_PT_AUDIO, AI_PT_IMAGE, AI_PT_FILE,
          AI_PT_TEXT, AI_PT_EVENT, AI_PT_CUSTOM_LOG]
      by_cases h5 : u = AI_PT_EVENT
      · simp [h5, recognizedType, AI_PT_VIDEO, AI_PT_AUDIO, AI_PT_IMAGE, AI_PT_FILE,
          AI_PT_TEXT, AI_PT_EVENT, AI_PT_CUSTOM_LOG]
      by_cases h6 : u = AI_PT_CUSTOM_LOG
      · simp [h6, h60, recognizedType, AI_PT_VIDEO, AI_PT_AUDIO, AI_PT_IMAGE, AI_PT_FILE,
          AI_PT_TEXT, AI_PT_EVENT, AI_PT_CUSTOM_LOG]
      · simp [recognizedType, h0, h1, h2, h3, h4, h5, h6]
  · by_cases hlog : B &&& (1 <<< AI_PT_CUSTOM_LOG) ≠ 0
    · rw [if_pos hlog]
      show true = B.testBit AI_PT_CUSTOM_LOG
      rw [← decide_and_shift]
      simp [hlog]
    · rw [if_neg hlog]
      show false = B.testBit AI_PT_CUSTOM_LOG
      rw [← decide_and_shift]
      exact (decide_eq_false hlog).symm

/-- Witness for C4: a connected client filtering with bitmap
`2^TEXT + 2^CUSTOM_LOG` (user data bytes 0x10 00 00 00 00 00 00 10). -/
theorem handleEventFilter_bitmap_w :
    (handleEventFilter ⟨0, true, 0, [0, 0, 0, 0, 0, 0, 0, 0]⟩ false
      ⟨8, [16, 0, 0, 0, 0, 0, 0, 16]⟩).1 = OPRT_OK ∧
    isClientRegistered (handleEventFilter ⟨0, true, 0, [0, 0, 0, 0, 0, 0, 0, 0]⟩ false
      ⟨8, [16, 0, 0, 0, 0, 0, 0, 16]⟩).2.1 AI_PT_TEXT =
      ((be64At [16, 0, 0, 0, 0, 0, 0, 16] 0).testBit AI_PT_TEXT && recognizedType AI_PT_TEXT) ∧
    (handleEventFilter ⟨0, true, 0, [0, 0, 0, 0, 0, 0, 0, 0]⟩ false
      ⟨8, [16, 0, 0, 0, 0, 0, 0, 16]⟩).2.2 =
      (be64At [16, 0, 0, 0, 0, 0, 0, 16] 0).testBit AI_PT_CUSTOM_LOG := by
  have h := handleEventFilter_bitmap ⟨0, true, 0, [0, 0, 0, 0, 0, 0, 0, 0]⟩ false
    ⟨8, [16, 0, 0, 0, 0, 0, 0, 16]⟩ rfl rfl
  exact ⟨h.1, h.2.1 AI_PT_TEXT, h.2.2⟩

/-- C9: a MONITOR_FILTER event whose user-data length is not exactly 8 is
rejected with the invalid-parameter error before any mutation: the client's
subscription bitmap and the log-term registration are returned unchanged. -/
theorem handleEventFilter_bad_len (client : Client) (logTerm : Bool) (event : EventAttr)
    (h : event.userLen ≠ 8) :
    handleEventFilter client logTerm event = (OPRT_INVALID_PARM, client, logTerm) := by
  simp [handleEventFilter, h]

/-- Witness for C9: a 7-byte user-data event leaves a subscribed client and
a registered log term untouched. -/
theorem handleEventFilter_bad_len_w :
    handleEventFilter ⟨3, true, 5, [255, 0, 0, 0, 0, 0, 0, 16]⟩ true ⟨7, [1, 2, 3, 4, 5, 6, 7]⟩ =
      (OPRT_INVALID_PARM, ⟨3, true, 5, [255, 0, 0, 0, 0, 0, 0, 16]⟩, true) :=
  handleEventFilter_bad_len _ _ _ (by decide)

/- ------------------------------------------------------------------ -/
/- Fan-out dispatcher: `__ai_biz_handler` and its entry points.        -/
/- ------------------------------------------------------------------ -/

/-- `AI_BIZ_HEAD_INFO_T`, restricted to the fields the fan-out reads. -/
structure BizHead where
  streamFlag : Nat
  totalLen : Nat
  len : Nat
  deriving Repr, DecidableEq

/-- `AI_BIZ_ATTR_INFO_T`, restricted to the packet-type field the fan-out
reads (`attr->type`). -/
structure BizAttr where
  type : Nat
  deriving Repr, DecidableEq

/-- `__pack_and_send`: rejects a disconnected slot, then points the writer
singleton at the client's descriptor and the chosen direction and invokes the
external `tuya_ai_send_biz_pkt_custom` (modelled as succeeding; its inner
byte production is out of scope). -/
def packAndSend (client : Client) (direction : Nat) (w : WriterCfg) : Int × WriterCfg :=
  if client.connected = false then (OPRT_INVALID_PARM, w)
  else (OPRT_OK, { w with fd := client.fd, direction := direction })

/-- The per-client loop of `__ai_biz_handler`: skip slots that are
disconnected, have a negative descriptor, or are not registered for the
packet type; send to the rest.  Returns the final `ret`, the final writer
configuration, and the list of (descriptor, direction) sends attempted, in
order. -/
def fanoutLoop (direction ptype : Nat) : List Client → WriterCfg → Int → Int × WriterCfg × List (Int × Nat)
  | [], w, ret => (ret, w, [])
  | c :: cs, w, ret =>
    if c.connected = false ∨ c.fd < 0 then fanoutLoop direction ptype cs w ret
    else if isClientRegistered c ptype = false then fanoutLoop direction ptype cs w ret
    else
      let r := packAndSend c direction w
      let rest := fanoutLoop direction ptype cs r.2 r.1
      (rest.1, rest.2.1, (c.fd, direction) :: rest.2.2)

/-- `__ai_biz_handler`: null checks, the fragmentation rejection
(`total_len > 0 && total_len != len`), then the per-client fan-out. -/
def aiBizHandler (direction id : Nat) (attr : Option BizAttr) (head : Option BizHead)
    (clients : List Client) (w : WriterCfg) : Int × WriterCfg × List (Int × Nat) :=
  match attr, head with
  | some attr, some head =>
    if 0 < head.totalLen ∧ head.totalLen ≠ head.len then (OPRT_NOT_SUPPORTED, w, [])
    else fanoutLoop direction attr.type clients w OPRT_OK
  | _, _ => (OPRT_INVALID_PARM, w, [])

/-- `__ai_biz_recv_handler`: downstream direction (DS = 1). -/
def aiBizRecvHandler (id : Nat) (attr : Option BizAttr) (head : Option BizHead)
    (clients : List Client) (w : WriterCfg) : Int × WriterCfg × List (Int × Nat) :=
  aiBizHandler 1 id attr head clients w

/-- `__ai_biz_send_handler`: upstream direction (US = 0). -/
def aiBizSendHandler (id : Nat) (attr : Option BizAttr) (head : Option BizHead)
    (clients : List Client) (w : WriterCfg) : Int × WriterCfg × List (Int × Nat) :=
  aiBizHandler 0 id attr head clients w

/-- `tuya_ai_monitor_broadcast`: rejected unless initialized and running,
then the common fan-out with the ACK direction (2). -/
def tuyaAiMonitorBroadcast (initialized running : Bool) (id : Nat) (attr : Option BizAttr)
    (head : Option BizHead) (clients : List Client) (w : WriterCfg) :
    Int × WriterCfg × List (Int × Nat) :=
  if initialized = false ∨ running = false then (OPRT_INVALID_PARM, w, [])
  else aiBizHandler 2 id attr head clients w

/-- C5: every fan-out invocation (the recv hook, the send hook, or a running
broadcast) on a packet with `total_len > 0` and `total_len != len` returns
"not supported" without attempting any send; the writer singleton - the only
state the fan-out mutates, the client slots are only read - is unchanged. -/
theorem fanout_rejects_fragmented (direction id : Nat) (attr : BizAttr) (head : BizHead)
    (clients : List Client) (w : WriterCfg)
    (ht : 0 < head.totalLen) (hne : head.totalLen ≠ head.len) :
    aiBizHandler direction id (some attr) (some head) clients w = (OPRT_NOT_SUPPORTED, w, []) ∧
    aiBizRecvHandler id (some attr) (some head) clients w = (OPRT_NOT_SUPPORTED, w, []) ∧
    aiBizSendHandler id (some attr) (some head) clients w = (OPRT_NOT_SUPPORTED, w, []) ∧
    tuyaAiMonitorBroadcast true true id (some attr) (some head) clients w =
      (OPRT_NOT_SUPPORTED, w, []) := by
  have hcore : ∀ d : Nat, aiBizHandler d id (some attr) (some head) clients w =
      (OPRT_NOT_SUPPORTED, w, []) := by
    intro d
    simp [aiBizHandler, ht, hne]
  exact ⟨hcore direction, hcore 1, hcore 0, by simp [tuyaAiMonitorBroadcast, hcore 2]⟩

/-- Witness for C5: a fragmented head (total_len 2048, len 512) is rejected
on all four entry points with one connected subscribed client present. -/
theorem fanout_rejects_fragmented_w :
    aiBizHandler 2 9 (some ⟨4⟩) (some ⟨1, 2048, 512⟩)
      [⟨5, true, 0, [16, 0, 0, 0, 0, 0, 0, 0]⟩] initWriterCfg =
      (OPRT_NOT_SUPPORTED, initWriterCfg, []) ∧
    aiBizRecvHandler 9 (some ⟨4⟩) (some ⟨1, 2048, 512⟩)
      [⟨5, true, 0, [16, 0, 0, 0, 0, 0, 0, 0]⟩] initWriterCfg =
      (OPRT_NOT_SUPPORTED, initWriterCfg, []) ∧
    aiBizSendHandler 9 (some ⟨4⟩) (some ⟨1, 2048, 512⟩)
      [⟨5, true, 0, [16, 0, 0, 0, 0, 0, 0, 0]⟩] initWriterCfg =
      (OPRT_NOT_SUPPORTED, initWriterCfg, []) ∧
    tuyaAiMonitorBroadcast true true 9 (some ⟨4⟩) (some ⟨1, 2048, 512⟩)
      [⟨5, true, 0, [16, 0, 0, 0, 0, 0, 0, 0]⟩] initWriterCfg =
      (OPRT_NOT_SUPPORTED, initWriterCfg, []) :=
  fanout_rejects_fragmented 2 9 ⟨4⟩ ⟨1, 2048, 512⟩ _ _ (by decide) (by decide)

theorem fanoutLoop_sends_sound (direction ptype : Nat) (cs : List Client) :
    ∀ (w : WriterCfg) (ret : Int) (p : Int × Nat),
      p ∈ (fanoutLoop direction ptype cs w ret).2.2 →
      ∃ c ∈ cs, c.connected = true ∧ 0 ≤ c.fd ∧ isClientRegistered c ptype = true ∧
        p = (c.fd, direction) := by
  induction cs with
  | nil =>
    intro w ret p hp
    simp [fanoutLoop] at hp
  | cons c cs ih =>
    intro w ret p hp
    simp only [fanoutLoop] at hp
    by_cases h1 : c.connected = false ∨ c.fd < 0
    · rw [if_pos h1] at hp
      obtain ⟨c', hmem, hrest⟩ := ih _ _ _ hp
      exact ⟨c', List.mem_cons_of_mem _ hmem, hrest⟩
    · rw [if_neg h1] at hp
      by_cases h2 : isClientRegistered c ptype = false
      · rw [if_pos h2] at hp
        obtain ⟨c', hmem, hrest⟩ := ih _ _ _ hp
        exact ⟨c', List.mem_cons_of_mem _ hmem, hrest⟩
      · rw [if_neg h2] at hp
        rcases List.mem_cons.mp hp with hfst | hrest
        · refine ⟨c, List.mem_cons_self c cs, ?_, ?_, ?_, hfst⟩
          · cases hcb : c.connected
            · exact absurd (Or.inl hcb) h1
            · rfl
          · omega
          · cases hrb : isClientRegistered c ptype
            · exact absurd hrb h2
            · rfl
        · obtain ⟨c', hmem, hr⟩ := ih _ _ _ hrest
          exact ⟨c', List.mem_cons_of_mem _ hmem, hr⟩

/-- C10: the subscription query returns false whenever the type is at least
64 or the slot is disconnected; the subscription set operation rejects such
arguments with the invalid-parameter error (so every bitmap access uses a
byte index below 8); and every send the fan-out attempts targets a connected
slot with a nonnegative descriptor that is registered for the packet's
type - fan-out never forwards to a disconnected slot. -/
theorem subscription_guard_safe :
    (∀ (c : Client) (t : Nat), 64 ≤ t ∨ c.connected = false →
      isClientRegistered c t = false) ∧
    (∀ (c : Client) (t : Nat), 64 ≤ t ∨ c.connected = false →
      clientRegister c t = (OPRT_INVALID_PARM, c)) ∧
    (∀ (direction id : Nat) (attr : BizAttr) (head : BizHead) (clients : List Client)
        (w : WriterCfg) (p : Int × Nat),
      p ∈ (aiBizHandler direction id (some attr) (some head) clients w).2.2 →
      ∃ c ∈ clients, c.connected = true ∧ 0 ≤ c.fd ∧
        isClientRegistered c attr.type = true ∧ p = (c.fd, direction)) := by
  refine ⟨?_, ?_, ?_⟩
  · intro c t h
    simp [isClientRegistered, h]
  · intro c t h
    simp [clientRegister, h]
  · intro direction id attr head clients w p hp
    simp only [aiBizHandler] at hp
    by_cases hf : 0 < head.totalLen ∧ head.totalLen ≠ head.len
    · rw [if_pos hf] at hp
      simp at hp
    · rw [if_neg hf] at hp
      exact fanoutLoop_sends_sound direction attr.type clients w OPRT_OK p hp

/-- Witness for C10: an out-of-range type and a disconnected slot are
rejected, and the sole send produced by a fan-out over one subscribed
connected client targets that client. -/
theorem subscription_guard_safe_w :
    isClientRegistered ⟨0, false, 0, []⟩ 70 = false ∧
    clientRegister ⟨0, false, 0, []⟩ 70 = (OPRT_INVALID_PARM, ⟨0, false, 0, []⟩) ∧
    (∃ c ∈ [(⟨5, true, 0, [16, 0, 0, 0, 0, 0, 0, 0]⟩ : Client)], c.connected = true ∧
      0 ≤ c.fd ∧ isClientRegistered c (4 : Nat) = true ∧ ((5 : Int), (2 : Nat)) = (c.fd, 2)) :=
  ⟨subscription_guard_safe.1 ⟨0, false, 0, []⟩ 70 (Or.inl (by decide)),
    subscription_guard_safe.2.1 ⟨0, false, 0, []⟩ 70 (Or.inl (by decide)),
    subscription_guard_safe.2.2 2 9 ⟨4⟩ ⟨1, 3, 3⟩
      [⟨5, true, 0, [16, 0, 0, 0, 0, 0, 0, 0]⟩] initWriterCfg (5, 2) (by decide)⟩

/- ------------------------------------------------------------------ -/
/- Inbound handler: the PING branch of `__parse_pkg`, `__handle_ping`. -/
/- ------------------------------------------------------------------ -/

/-- Modelled from the spec: `sizeof(AI_PAYLOAD_HEAD_T)` from
`tuya_ai_protocol.h` (not among the sources).  The monitor reads its `type`
and `attribute_flag` fields; we model a packed 2-byte layout (type byte,
attribute-flag byte).  The claims proved below hold for any positive size. -/
def PAYLOAD_HEAD_SIZE : Nat := 2

/-- Modelled from the spec: the `AI_HAS_ATTR` flag value meaning
"attributes present". -/
def AI_HAS_ATTR : Nat := 1

/-- Modelled from the spec: the `AI_ATTR_CLIENT_TS` attribute id from
`tuya_ai_protocol.h` (not among the sources). -/
def AI_ATTR_CLIENT_TS : Nat := 1

/-- Big-endian 16-bit read at offset `off`. -/
def be16At (buf : List Nat) (off : Nat) : Nat :=
  byteAt buf off * 256 + byteAt buf (off + 1)

/-- Big-endian encoding of a 64-bit value. -/
def be64bytes (n : Nat) : List Nat :=
  be32bytes (n / 4294967296) ++ be32bytes (n % 4294967296)

/-- Modelled from the spec: `tuya_ai_get_attr_value` (external encoder, not
among the sources) parses one attribute at `off`, returning the advanced
offset, the attribute id and its u64 value.  We model a 12-byte attribute:
big-endian u16 id, 2 reserved bytes, big-endian u64 value.  The monitor's
PING loop never reaches it (see `ping_client_ts_never_echoed`): the loop
guard `offset < attr_len` is evaluated with `offset` already advanced past
the whole attribute block. -/
def getAttrValue (buf : List Nat) (off : Nat) : Nat × Nat × Nat :=
  (off + 12, be16At buf off, be64At buf (off + 4))

/-- The attribute-parsing loop of the PING branch of `__parse_pkg`,
fuelled by the attribute-block length.  `offset` enters the loop already
advanced past the attribute block (`offset += attr_len` precedes the loop in
the source), so the guard `offset < attr_len` is false on entry. -/
def pingAttrLoop (attrBuf : List Nat) : Nat → Nat → Nat → Nat → Nat
  | _, _, clientTs, 0 => clientTs
  | offset, attrLen, clientTs, fuel + 1 =>
    if offset < attrLen then
      let r := getAttrValue attrBuf offset
      let ts := if r.2.1 = AI_ATTR_CLIENT_TS then r.2.2 else clientTs
      pingAttrLoop attrBuf r.1 attrLen ts fuel
    else clientTs

/-- The PONG response synthesized by `__handle_ping`: direction ACK with the
echoed CLIENT_TS and the fresh SERVER_TS attributes. -/
structure PongPkt where
  direction : Nat
  clientTs : Nat
  serverTs : Nat
  deriving Repr, DecidableEq

/-- The PING branch of `__parse_pkg` followed by `__handle_ping` (the EVENT
branch is embedded separately as `handleEventFilter`; other types fail with
"not supported").  On a PING with attributes present: read the big-endian
u32 attribute-block length, advance `offset` past the block, run the
attribute loop (which the advanced `offset` prevents from ever iterating),
then update `last_ping_time` to `now` and emit a PONG carrying the parsed
CLIENT_TS and SERVER_TS = now with direction ACK. -/
def parsePkgPing (data : List Nat) (now : Nat) (client : Client) :
    Int × Client × Option PongPkt :=
  if data.length < PAYLOAD_HEAD_SIZE then (OPRT_INVALID_PARM, client, none)
  else if byteAt data 0 = AI_PT_PING then
    if byteAt data 1 ≠ AI_HAS_ATTR then (OPRT_COM_ERROR, client, none)
    else
      let attrLen := be32At data PAYLOAD_HEAD_SIZE
      let offset := PAYLOAD_HEAD_SIZE + 4 + attrLen
      let clientTs := pingAttrLoop (data.drop (PAYLOAD_HEAD_SIZE + 4)) offset attrLen 0 (attrLen + 1)
      (OPRT_OK, { client with lastPingTime := now },
        some { direction := 2, clientTs := clientTs, serverTs := now })
  else (OPRT_NOT_SUPPORTED, client, none)

/-- A well-formed PING packet body carrying a CLIENT_TS attribute with
value `T`: payload head (PING, has-attr), attribute-block length 12,
then the 12-byte CLIENT_TS attribute. -/
def mkPingPkt (T : Nat) : List Nat :=
  [AI_PT_PING, AI_HAS_ATTR] ++ be32bytes 12 ++ [0, AI_ATTR_CLIENT_TS, 0, 0] ++ be64bytes T

theorem pingAttrLoop_no_iteration (attrBuf : List Nat) (offset attrLen ts fuel : Nat)
    (h : ¬ offset < attrLen) :
    pingAttrLoop attrBuf offset attrLen ts fuel = ts := by
  cases fuel with
  | zero => rfl
  | succ f => simp [pingAttrLoop, h]

/-- C2 (the PONG echoes the received CLIENT_TS) is FALSE of the code: the
attribute loop guard `offset < attr_len` compares the block length against
an offset already advanced past the block, so the loop never executes and
`client_ts` keeps its initialization value 0.  Every valid PING is answered
with a PONG whose CLIENT_TS is 0, whatever value the client sent; the
last-ping-time update and SERVER_TS = now parts of the claim do hold. -/
theorem ping_client_ts_never_echoed :
    (∀ (data : List Nat) (now : Nat) (client : Client),
      PAYLOAD_HEAD_SIZE ≤ data.length → byteAt data 0 = AI_PT_PING →
      byteAt data 1 = AI_HAS_ATTR →
      parsePkgPing data now client =
        (OPRT_OK, { client with lastPingTime := now },
          some { direction := 2, clientTs := 0, serverTs := now })) ∧
    (parsePkgPing (mkPingPkt 1234605675192942200) 777 ⟨6, true, 5, [0, 0, 0, 0, 0, 0, 0, 0]⟩ =
      (OPRT_OK, ⟨6, true, 777, [0, 0, 0, 0, 0, 0, 0, 0]⟩,
        some { direction := 2, clientTs := 0, serverTs := 777 }) ∧
      (0 : Nat) ≠ 1234605675192942200) := by
  constructor
  · intro data now client hlen hty hattr
    have hne : ¬ (data.length < PAYLOAD_HEAD_SIZE) := by omega
    have hfl : ¬ (byteAt data 1 ≠ AI_HAS_ATTR) := by simp [hattr]
    simp only [parsePkgPing, if_neg hne, if_pos hty, if_neg hfl]
    rw [pingAttrLoop_no_iteration _ _ _ _ _ (by have : PAYLOAD_HEAD_SIZE = 2 := rfl; omega)]
  · constructor
    · have h := pingAttrLoop_no_iteration ((mkPingPkt 1234605675192942200).drop (PAYLOAD_HEAD_SIZE + 4))
        (PAYLOAD_HEAD_SIZE + 4 + 12) 12 0 13 (by norm_num [PAYLOAD_HEAD_SIZE])
      simp only [parsePkgPing]
      norm_num [mkPingPkt, PAYLOAD_HEAD_SIZE, AI_PT_PING, AI_HAS_ATTR, byteAt, be32bytes,
        be64bytes, be32At, AI_PT_CUSTOM_LOG]
      rw [pingAttrLoop_no_iteration _ _ _ _ _ (by omega)]
    · decide

/-- Witness for C2's evaluation: a PING carrying CLIENT_TS = 7 is answered
with CLIENT_TS = 0 and SERVER_TS = now, and last_ping_time becomes now. -/
theorem ping_client_ts_never_echoed_w :
    parsePkgPing (mkPingPkt 7) 10 ⟨1, true, 0, [0, 0, 0, 0, 0, 0, 0, 0]⟩ =
      (OPRT_OK, ⟨1, true, 10, [0, 0, 0, 0, 0, 0, 0, 0]⟩,
        some { direction := 2, clientTs := 0, serverTs := 10 }) :=
  ping_client_ts_never_echoed.1 (mkPingPkt 7) 10 ⟨1, true, 0, [0, 0, 0, 0, 0, 0, 0, 0]⟩
    (by decide) (by decide) (by decide)

/- ------------------------------------------------------------------ -/
/- Lifecycle controller: init / timer tick / accept error / deinit.    -/
/- ------------------------------------------------------------------ -/

/-- The lifecycle-relevant fields of `ai_monitor_server_t`.
`timerRunning` tracks whether the underlying OS creation timer is started
(the handle itself is zeroed by `memset`, but `deinit` never stops or
deletes the timer). -/
structure MonState where
  initialized : Bool
  running : Bool
  serverFd : Int
  timerRunning : Bool
  clientCount : Nat
  deriving Repr, DecidableEq

/-- The static zero initializer of `g_ai_monitor_server` (note `server_fd`
starts at 0, not -1; `tuya_ai_monitor_init` sets it to -1). -/
def monInitialState : MonState :=
  { initialized := false, running := false, serverFd := 0,
    timerRunning := false, clientCount := 0 }

/-- Lifecycle events.  `initEv` carries the success of `tuya_sock_loop_init`
and of the allocation steps (clients array, mutex, timer creation); a
successful init runs `__ai_monitor_start` and `bizOk` is the success of
`tuya_ai_biz_monitor_register`.  `tickEv` is one firing of
`__monitor_tm_cb` with the device-activated flag and the outcome of
`__tcp_create_serv_fd` (which yields the nonnegative descriptor `newFd`).
`acceptErrEv` is the listener's error callback, `deinitEv` is
`tuya_ai_monitor_deinit`. -/
inductive MonEvent where
  | initEv (sockOk allocOk bizOk : Bool)
  | tickEv (activated createOk : Bool) (newFd : Nat)
  | acceptErrEv
  | deinitEv
  deriving Repr, DecidableEq

/-- `__session_close_all`: forget the listening descriptor, release all
clients, and restart the cyclic creation timer. -/
def sessionCloseAll (s : MonState) : MonState :=
  { s with serverFd := -1, clientCount := 0, timerRunning := true }

/-- One lifecycle transition.  `tickEv` only fires while the timer is
started; `acceptErrEv` only fires while the listening socket is registered
(initialized and descriptor nonnegative).  `deinitEv` runs
`__ai_monitor_stop` when running (mass teardown, which restarts the timer,
then running := false) and then frees and zeroes the state with `memset` -
leaving the OS timer running and the zeroed descriptor at 0. -/
def monStep (s : MonState) (e : MonEvent) : MonState :=
  match e with
  | .initEv sockOk allocOk bizOk =>
    if s.initialized then s
    else if sockOk = false then s
    else if allocOk = false then
      { initialized := false, running := false, serverFd := 0,
        timerRunning := s.timerRunning, clientCount := 0 }
    else if bizOk = false then
      { initialized := true, running := false, serverFd := -1,
        timerRunning := true, clientCount := 0 }
    else
      { initialized := true, running := true, serverFd := -1,
        timerRunning := true, clientCount := 0 }
  | .tickEv activated createOk newFd =>
    if s.timerRunning = false then s
    else if 0 ≤ s.serverFd then s
    else if activated = false then s
    else if createOk then { s with serverFd := (newFd : Int), timerRunning := false }
    else s
  | .acceptErrEv =>
    if s.initialized = false ∨ s.serverFd < 0 then s
    else sessionCloseAll s
  | .deinitEv =>
    if s.initialized = false then s
    else
      let s1 := if s.running then { sessionCloseAll s with running := false } else s
      { initialized := false, running := false, serverFd := 0,
        timerRunning := s1.timerRunning, clientCount := 0 }

/-- State after a sequence of lifecycle events from the static zero state. -/
def monRun (evs : List MonEvent) : MonState :=
  evs.foldl monStep monInitialState

theorem monStep_preserves (s : MonState) (e : MonEvent)
    (h : s.running = true → (0 ≤ s.serverFd ↔ s.timerRunning = false)) :
    (monStep s e).running = true →
      (0 ≤ (monStep s e).serverFd ↔ (monStep s e).timerRunning = false) := by
  cases e with
  | initEv sockOk allocOk bizOk =>
    simp only [monStep]
    split_ifs <;> simp_all
  | tickEv activated createOk newFd =>
    simp only [monStep]
    split_ifs with h1 h2 h3 h4 <;> intro hr <;> simp_all
  | acceptErrEv =>
    simp only [monStep]
    split_ifs with h1 <;> intro hr <;> simp_all [sessionCloseAll]
  | deinitEv =>
    simp only [monStep]
    split_ifs <;> simp_all

theorem monRun_preserves (evs : List MonEvent) :
    ∀ s : MonState, (s.running = true → (0 ≤ s.serverFd ↔ s.timerRunning = false)) →
      ((evs.foldl monStep s).running = true →
        (0 ≤ (evs.foldl monStep s).serverFd ↔ (evs.foldl monStep s).timerRunning = false)) := by
  induction evs with
  | nil => intro s h; exact h
  | cons e evs ih =>
    intro s h
    exact ih (monStep s e) (monStep_preserves s e h)

/-- C7 (amended): in every reachable state in which the service is RUNNING,
the listening descriptor is nonnegative exactly when the periodic creation
timer is stopped.  As stated over all reachable states the claim fails:
deinit's mass teardown restarts the creation timer and never stops it, and
the final `memset` zeroes the descriptor, so right after deinit the
descriptor is 0 (nonnegative) while running is false and the timer is still
started (see the counterexample). -/
theorem listening_iff_timer_stopped_while_running (evs : List MonEvent)
    (h : (monRun evs).running = true) :
    0 ≤ (monRun evs).serverFd ↔ (monRun evs).timerRunning = false :=
  monRun_preserves evs monInitialState (by intro hr; cases hr) h

/-- Witness for C7's amended invariant: after a successful init the service
is running, the descriptor is -1 and the timer is started. -/
theorem listening_iff_timer_stopped_while_running_w :
    (monRun [MonEvent.initEv true true true]).running = true ∧
      (0 ≤ (monRun [MonEvent.initEv true true true]).serverFd ↔
        (monRun [MonEvent.initEv true true true]).timerRunning = false) :=
  ⟨by decide, listening_iff_timer_stopped_while_running [MonEvent.initEv true true true] (by decide)⟩

/-- Counterexample for C7 as stated: after init followed by deinit (states
the claim's list of lifecycle steps includes), the zeroed descriptor is 0,
running is false and the creation timer restarted by the stop path is still
running, so "descriptor nonnegative iff timer stopped and running" fails. -/
theorem listening_invariant_fails_after_deinit :
    ¬ (0 ≤ (monRun [MonEvent.initEv true true true, MonEvent.deinitEv]).serverFd ↔
        ((monRun [MonEvent.initEv true true true, MonEvent.deinitEv]).timerRunning = false ∧
          (monRun [MonEvent.initEv true true true, MonEvent.deinitEv]).running = true)) := by
  decide
